import Mathlib

/-!
Shallow embedding of the Tendermint-style light-client core covered by this
repository: the contract predicates of `light-client/src/contracts.rs`, the
top-level error type and its classifiers of `light-client/src/errors.rs`,
and the blocking ABCI client dispatch of `abci/src/client.rs`.

Machine integers are modelled as `Nat`; external crate types (protobuf
messages, crossbeam channel errors, sled errors) are modelled opaquely, since
only their identity — never their contents — is inspected by the code under
verification.
-/

/-- Block height: a non-zero 64-bit unsigned integer in the source, modelled as `Nat`. -/
abbrev Height := Nat

/-- Opaque fixed-width hash; equality is byte equality, modelled as `Nat`. -/
abbrev Hash := Nat

/-- Opaque peer identifier. -/
abbrev PeerId := Nat

/-- Wall-clock instant with nanosecond resolution, counted in nanoseconds from
the minimum representable instant. Subtracting a duration that would land
before that minimum underflows and is rejected (see `timeSub`). -/
abbrev Time := Nat

/-- Non-negative span of time in nanoseconds (`std::time::Duration`). -/
abbrev Duration := Nat

/-- Checked subtraction `now - trusting_period` as performed on `Time` values:
the source's subtraction of a `Duration` from a `Time` returns a `Result`,
failing when the result would precede the minimum representable instant. -/
def timeSub (t : Time) (d : Duration) : Option Time :=
  if d ≤ t then some (t - d) else none

/-- Status label of a stored light block: `{Unverified, Verified, Trusted, Failed}`. -/
inductive Status where
  | unverified
  | verified
  | trusted
  | failed
deriving DecidableEq

/-- Fraction `num/den`, both positive, used for trust thresholds. -/
structure Fraction where
  num : Nat
  den : Nat
deriving DecidableEq

/-- Verification options: trust threshold, trusting period and clock drift. -/
structure Options where
  trust_threshold : Fraction
  trusting_period : Duration
  clock_drift : Duration
deriving DecidableEq

/-- An ordered validator sequence is abstracted by its Merkle root and total
voting power; the contract predicates and error type never look inside. -/
structure ValidatorSet where
  hash : Hash
  total_voting_power : Nat
deriving DecidableEq

/-- Block header with the fields the embedded code reads. -/
structure Header where
  chain_id : String
  height : Height
  time : Time
  validators_hash : Hash
  next_validators_hash : Hash
deriving DecidableEq

/-- Commit over a specific height; its signatures are never inspected by the
embedded code and are abstracted away. -/
structure Commit where
  height : Height
deriving DecidableEq

/-- A header together with the commit certifying it. -/
structure SignedHeader where
  header : Header
  commit : Commit
deriving DecidableEq

/-- A signed header bundled with the validator sets needed to verify it. -/
structure LightBlock where
  signed_header : SignedHeader
  validators : ValidatorSet
  next_validators : ValidatorSet
  provider : PeerId
deriving DecidableEq

/-- Height of a light block, read from its header. -/
def LightBlock.height (lb : LightBlock) : Height :=
  lb.signed_header.header.height

/-- Modelled from the spec: the light store (§4.5) is typed persistence for
`LightBlock` records keyed by height with a status label; a given height holds
at most one block per status. The store trait itself is not part of the
sources, so it is modelled as the list of its (block, status) records. -/
structure LightStore where
  entries : List (LightBlock × Status)

/-- Modelled from the spec: `get(height, status) → Option<LightBlock>` returns
the stored block at the given height carrying the given status, if any. -/
def LightStore.get (s : LightStore) (h : Height) (st : Status) : Option LightBlock :=
  (s.entries.find? (fun e => e.1.height = h ∧ e.2 = st)).map Prod.fst

/-- Modelled from the spec: `all(status)` yields the finite sequence of stored
blocks carrying the given status. -/
def LightStore.all (s : LightStore) (st : Status) : List LightBlock :=
  (s.entries.filter (fun e => e.2 = st)).map Prod.fst

/-- Whether or not the given light store contains a verified or trusted block
at the given target height (`contracts.rs`). -/
def trusted_store_contains_block_at_target_height
    (light_store : LightStore) (target_height : Height) : Bool :=
  (light_store.get target_height Status.verified).isSome
    || (light_store.get target_height Status.trusted).isSome

/-- Whether or not the given block is within the given trusting period,
relative to the given time (`contracts.rs`): the checked subtraction
`now - trusting_period` is matched, the `Ok` branch compares the header time
strictly against the result, and the `Err` branch yields `false`. -/
def is_within_trust_period
    (light_block : LightBlock) (trusting_period : Duration) (now : Time) : Bool :=
  let header_time := light_block.signed_header.header.time
  match timeSub now trusting_period with
  | some start => decide (start < header_time)
  | none => false

/-- Whether or not the given light store contains a trusted block within the
trusting period (`contracts.rs`). -/
def light_store_contains_block_within_trusting_period
    (light_store : LightStore) (trusting_period : Duration) (now : Time) : Bool :=
  (light_store.all Status.trusted).any
    (fun lb => is_within_trust_period lb trusting_period now)

/-- Sample header used to build concrete witnesses. -/
def sampleHeader (t : Time) : Header :=
  { chain_id := "test-chain", height := 1, time := t,
    validators_hash := 0, next_validators_hash := 0 }

/-- Sample light block whose header time is `t`. -/
def sampleLB (t : Time) : LightBlock :=
  { signed_header := { header := sampleHeader t, commit := { height := 1 } },
    validators := { hash := 0, total_voting_power := 100 },
    next_validators := { hash := 0, total_voting_power := 100 },
    provider := 0 }

/-- C3: the store-at-target-height contract holds exactly when some record of
the store sits at the target height with status `Verified` or `Trusted`, and a
store stripped of its `Verified` and `Trusted` records never satisfies it. -/
theorem trusted_store_contains_iff_verified_or_trusted :
    (∀ (s : LightStore) (h : Height),
      trusted_store_contains_block_at_target_height s h = true ↔
        ∃ e, e ∈ s.entries ∧ e.1.height = h ∧
          (e.2 = Status.verified ∨ e.2 = Status.trusted)) ∧
    (∀ (s : LightStore) (h : Height),
      trusted_store_contains_block_at_target_height
        ⟨s.entries.filter
          (fun e => ¬ (e.2 = Status.verified ∨ e.2 = Status.trusted))⟩ h = false) := by
  constructor
  · intro s h
    simp only [trusted_store_contains_block_at_target_height, LightStore.get,
      Option.isSome_map', Bool.or_eq_true, List.find?_isSome, decide_eq_true_eq]
    constructor
    · rintro (⟨e, he, h1, h2⟩ | ⟨e, he, h1, h2⟩)
      · exact ⟨e, he, h1, Or.inl h2⟩
      · exact ⟨e, he, h1, Or.inr h2⟩
    · rintro ⟨e, he, h1, h2 | h2⟩
      · exact Or.inl ⟨e, he, h1, h2⟩
      · exact Or.inr ⟨e, he, h1, h2⟩
  · intro s h
    simp only [trusted_store_contains_block_at_target_height, LightStore.get,
      Option.isSome_map', Bool.or_eq_false_iff, Option.not_isSome,
      Option.isNone_iff_eq_none, List.find?_eq_none, List.mem_filter,
      decide_eq_true_eq, not_or, and_imp, not_and, Prod.forall]
    exact ⟨fun a b _ hv _ _ hb => hv hb, fun a b _ _ ht _ hb => ht hb⟩

/-- C2: the bisection precondition holds exactly when the store contains a
record with status `Trusted` whose block is within the trusting period, and a
store stripped of its `Trusted` records never satisfies it. -/
theorem light_store_precondition_iff_trusted_within_period :
    (∀ (s : LightStore) (p : Duration) (now : Time),
      light_store_contains_block_within_trusting_period s p now = true ↔
        ∃ e, e ∈ s.entries ∧ e.2 = Status.trusted ∧
          is_within_trust_period e.1 p now = true) ∧
    (∀ (s : LightStore) (p : Duration) (now : Time),
      light_store_contains_block_within_trusting_period
        ⟨s.entries.filter (fun e => ¬ e.2 = Status.trusted)⟩ p now = false) := by
  constructor
  · intro s p now
    simp only [light_store_contains_block_within_trusting_period, LightStore.all,
      List.any_eq_true, List.mem_map, List.mem_filter, decide_eq_true_eq]
    constructor
    · rintro ⟨lb, ⟨e, ⟨he, hst⟩, rfl⟩, hw⟩
      exact ⟨e, he, hst, hw⟩
    · rintro ⟨e, he, hst, hw⟩
      exact ⟨e.1, ⟨e, ⟨he, hst⟩, rfl⟩, hw⟩
  · intro s p now
    simp only [light_store_contains_block_within_trusting_period, LightStore.all,
      List.any_eq_false, List.mem_map, List.mem_filter, decide_eq_true_eq]
    rintro lb ⟨e, ⟨⟨he, hne⟩, hst⟩, rfl⟩
    exact absurd hst hne

/-- C5: when the checked subtraction `now - trusting_period` underflows,
`is_within_trust_period` takes the error branch and returns `false` — the
block is treated as outside the trusting period, with no panic. -/
theorem is_within_trust_period_underflow_false
    (lb : LightBlock) (p : Duration) (now : Time)
    (h : timeSub now p = none) :
    is_within_trust_period lb p now = false := by
  simp [is_within_trust_period, h]

/-- Concrete run of `is_within_trust_period_underflow_false`: with a trusting
period of 1ns and `now` at the minimum instant, the subtraction underflows and
the predicate returns `false`. -/
theorem is_within_trust_period_underflow_false_witness :
    timeSub 0 1 = none ∧ is_within_trust_period (sampleLB 5) 1 0 = false :=
  ⟨by decide, is_within_trust_period_underflow_false (sampleLB 5) 1 0 (by decide)⟩

/-- C6: the three contract predicates are bit-deterministic — any two calls
with identical inputs (same block, same store contents, same trusting period,
same clock reading, same target height) return identical results. -/
theorem contracts_deterministic
    (lb lb' : LightBlock) (p p' : Duration) (now now' : Time)
    (s s' : LightStore) (h h' : Height)
    (hlb : lb = lb') (hp : p = p') (hnow : now = now')
    (hs : s.entries = s'.entries) (hh : h = h') :
    is_within_trust_period lb p now = is_within_trust_period lb' p' now' ∧
    trusted_store_contains_block_at_target_height s h =
      trusted_store_contains_block_at_target_height s' h' ∧
    light_store_contains_block_within_trusting_period s p now =
      light_store_contains_block_within_trusting_period s' p' now' := by
  cases s
  cases s'
  cases hs
  cases hlb
  cases hp
  cases hnow
  cases hh
  exact ⟨rfl, rfl, rfl⟩

/-- Concrete run of `contracts_deterministic` on equal concrete inputs. -/
theorem contracts_deterministic_witness :
    is_within_trust_period (sampleLB 5) 2 6 = is_within_trust_period (sampleLB 5) 2 6 ∧
    trusted_store_contains_block_at_target_height ⟨[]⟩ 1 =
      trusted_store_contains_block_at_target_height ⟨[]⟩ 1 ∧
    light_store_contains_block_within_trusting_period ⟨[]⟩ 2 6 =
      light_store_contains_block_within_trusting_period ⟨[]⟩ 2 6 :=
  contracts_deterministic (sampleLB 5) (sampleLB 5) 2 2 6 6 ⟨[]⟩ ⟨[]⟩ 1 1
    rfl rfl rfl rfl rfl

/-- Modelled from the spec: the trusting-period check that `verify` applies to
the trusted block (§4.1 step 1): "If `trusted.header.time ≤ now −
options.trusting_period`, return `Expired` (trusted state itself aged out)".
`verify` itself is not among the sources; this models exactly that clause,
returning `true` when `verify` would return `Expired` for the trust root. -/
def verifyTrustedExpired
    (trusted : LightBlock) (trusting_period : Duration) (now : Time) : Bool :=
  match timeSub now trusting_period with
  | some start => decide (trusted.signed_header.header.time ≤ start)
  | none => false

/-- C1 counterexample: the claim as stated — for every block, period and time,
within the trusting period exactly when the header time strictly exceeds
`now − P` — fails: with header time 1ns after the minimum instant, `P = 5ns`
and `now` 3ns after the minimum instant, the checked `now − P` underflows and
`is_within_trust_period` returns `false`, although the header time (1)
strictly exceeds the signed difference `now − P = −2`. -/
theorem is_within_trust_period_claim_counterexample :
    ¬ (∀ (lb : LightBlock) (p : Duration) (now : Time),
        is_within_trust_period lb p now = true ↔
          ((lb.signed_header.header.time : Int) > (now : Int) - (p : Int))) := by
  intro h
  have hc := (h (sampleLB 1) 5 3).mpr (by decide)
  exact absurd hc (by decide)

/-- C1 (amended): whenever `now − P` does not underflow, a block is within the
trusting period exactly when its header time strictly exceeds `now − P`; at
`now = header.time + P` the block is outside the period and the spec's
`verify` clause for the trust root yields `Expired`; and at
`now = header.time + P − 1ns` the block is still within the period provided
`now − P` does not underflow. -/
theorem is_within_trust_period_boundary :
    (∀ (lb : LightBlock) (p : Duration) (now : Time), p ≤ now →
      (is_within_trust_period lb p now = true ↔
        now - p < lb.signed_header.header.time)) ∧
    (∀ (lb : LightBlock) (p : Duration),
      is_within_trust_period lb p (lb.signed_header.header.time + p) = false ∧
      verifyTrustedExpired lb p (lb.signed_header.header.time + p) = true) ∧
    (∀ (lb : LightBlock) (p : Duration) (now : Time),
      p ≤ now → now + 1 = lb.signed_header.header.time + p →
      is_within_trust_period lb p now = true) := by
  refine ⟨?_, ?_, ?_⟩
  · intro lb p now hle
    simp [is_within_trust_period, timeSub, hle]
  · intro lb p
    have h1 : timeSub (lb.signed_header.header.time + p) p
        = some lb.signed_header.header.time := by
      simp [timeSub, Nat.le_add_left]
    constructor
    · simp [is_within_trust_period, h1]
    · simp [verifyTrustedExpired, h1]
  · intro lb p now hle heq
    have h1 : timeSub now p = some (now - p) := by
      simp [timeSub, hle]
    simp only [is_within_trust_period, h1, decide_eq_true_eq]
    rw [Nat.sub_lt_iff_lt_add hle, Nat.add_comm, ← heq]
    exact Nat.lt_succ_self now

/-- Concrete run of `is_within_trust_period_boundary`: header time 20ns, a
10ns trusting period; the block is within the period at `now = 25`, outside at
`now = 30 = 20 + 10` (where the trust-root check is `Expired`), and still
within at `now = 29 = 20 + 10 − 1`. -/
theorem is_within_trust_period_boundary_witness :
    (10 : Duration) ≤ (25 : Time) ∧
    (is_within_trust_period (sampleLB 20) 10 25 = true ↔ 25 - 10 < 20) ∧
    is_within_trust_period (sampleLB 20) 10 30 = false ∧
    verifyTrustedExpired (sampleLB 20) 10 30 = true ∧
    is_within_trust_period (sampleLB 20) 10 29 = true :=
  ⟨by decide,
   is_within_trust_period_boundary.1 (sampleLB 20) 10 25 (by decide),
   (is_within_trust_period_boundary.2.1 (sampleLB 20) 10).1,
   (is_within_trust_period_boundary.2.1 (sampleLB 20) 10).2,
   is_within_trust_period_boundary.2.2 (sampleLB 20) 10 29 (by decide) (by decide)⟩

/-- Modelled from the spec: I/O failure kinds (§4.6):
`{Timeout(Duration), Transport, InvalidResponse, HeightTooHigh}`. The I/O
component itself is not among the sources. -/
inductive IoError where
  | timeout (d : Duration)
  | transport
  | invalidResponse
  | heightTooHigh
deriving DecidableEq

/-- Modelled from the spec: whether an I/O failure is a timeout, and for how
long (`ErrorExt::is_timeout` on `IoError`). -/
def IoError.is_timeout : IoError → Option Duration
  | .timeout d => some d
  | _ => none

/-- Voting-power tally reported by a failed skipping verification. -/
structure VotingPowerTally where
  tally : Nat
  total : Nat
deriving DecidableEq

/-- Modelled from the spec: reasons of the verifier's `Invalid` verdicts
named in §4.1. -/
inductive InvalidReason where
  | nonIncreasingHeight
  | nonIncreasingTime
  | headerFromFuture
  | invalidNextValidatorSet
deriving DecidableEq

/-- Modelled from the spec: detail of a verification failure, following the
verifier's non-success verdicts (§4.1):
`NotEnoughTrust(tally)`, `Expired`, `Invalid(reason)`. The verifier's error
type is not among the sources. -/
inductive VerificationErrorDetail where
  | notEnoughTrust (tally : VotingPowerTally)
  | expired
  | invalid (reason : InvalidReason)
deriving DecidableEq

/-- Modelled from the spec: `ErrorExt::not_enough_trust` on the verification
detail — the tally of a `NotEnoughTrust` failure, `none` otherwise. -/
def VerificationErrorDetail.not_enough_trust :
    VerificationErrorDetail → Option VotingPowerTally
  | .notEnoughTrust t => some t
  | _ => none

/-- Modelled from the spec: `ErrorExt::has_expired` on the verification
detail — `true` exactly for an `Expired` failure. -/
def VerificationErrorDetail.has_expired : VerificationErrorDetail → Bool
  | .expired => true
  | _ => false

/-- Wrapper `DisplayError<VerificationErrorDetail>` of `flex_error`; the
wrapped detail is its `source`. -/
structure DisplayError where
  source : VerificationErrorDetail
deriving DecidableEq

/-- Opaque payload of the `Sled` variant (external crate error). -/
abbrev SledError := Nat

/-- Opaque payload of the `SerdeCbor` variant (external crate error). -/
abbrev SerdeCborError := Nat

/-- The toplevel error kinds raised by the light client, as declared by the
`define_error!` block of `errors.rs`, with their payloads, in declaration
order. -/
inductive ErrorDetail where
  | io (e : IoError)
  | noPrimary
  | noWitnesses
  | noWitnessesLeft
  | forkDetected (peers : List PeerId)
  | noInitialTrustedState
  | noTrustedState (status : Status)
  | targetLowerThanTrustedState (target_height trusted_height : Height)
  | heightTooHigh (height latest_height : Height)
  | trustedStateOutsideTrustingPeriod (trusted_state : LightBlock) (options : Options)
  | bisectionFailed (target_height trusted_height : Height)
  | invalidLightBlock (e : DisplayError)
  | invalidAdjacentHeaders (hash1 hash2 : Hash)
  | missingLastBlockId (height : Height)
  | channelDisconnected
  | sled (e : SledError)
  | serdeCbor (e : SerdeCborError)
deriving DecidableEq

/-- Rust-side variant name of each `ErrorDetail` constructor. -/
def kindName : ErrorDetail → String
  | .io _ => "Io"
  | .noPrimary => "NoPrimary"
  | .noWitnesses => "NoWitnesses"
  | .noWitnessesLeft => "NoWitnessesLeft"
  | .forkDetected _ => "ForkDetected"
  | .noInitialTrustedState => "NoInitialTrustedState"
  | .noTrustedState _ => "NoTrustedState"
  | .targetLowerThanTrustedState _ _ => "TargetLowerThanTrustedState"
  | .heightTooHigh _ _ => "HeightTooHigh"
  | .trustedStateOutsideTrustingPeriod _ _ => "TrustedStateOutsideTrustingPeriod"
  | .bisectionFailed _ _ => "BisectionFailed"
  | .invalidLightBlock _ => "InvalidLightBlock"
  | .invalidAdjacentHeaders _ _ => "InvalidAdjacentHeaders"
  | .missingLastBlockId _ => "MissingLastBlockId"
  | .channelDisconnected => "ChannelDisconnected"
  | .sled _ => "Sled"
  | .serdeCbor _ => "SerdeCbor"

/-- The sixteen error-kind names listed by the spec (§7), in the spec's
order; written from the spec's words, for comparison with the code. -/
def specErrorKindNames : List String :=
  ["Io", "NoPrimary", "NoWitnesses", "NoWitnessesLeft", "ForkDetected",
   "NoInitialTrustedState", "NoTrustedState", "TargetLowerThanTrustedState",
   "HeightTooHigh", "TrustedStateOutsideTrustingPeriod", "BisectionFailed",
   "InvalidLightBlock", "InvalidAdjacentHeaders", "MissingLastBlockId",
   "ChannelDisconnected", "StoreBackend"]

/-- The seventeen variant names declared by `errors.rs`, in declaration
order. -/
def codeErrorKindNames : List String :=
  ["Io", "NoPrimary", "NoWitnesses", "NoWitnessesLeft", "ForkDetected",
   "NoInitialTrustedState", "NoTrustedState", "TargetLowerThanTrustedState",
   "HeightTooHigh", "TrustedStateOutsideTrustingPeriod", "BisectionFailed",
   "InvalidLightBlock", "InvalidAdjacentHeaders", "MissingLastBlockId",
   "ChannelDisconnected", "Sled", "SerdeCbor"]

/-- One representative value per `ErrorDetail` constructor, in declaration
order. -/
def errorKindReps : List ErrorDetail :=
  [.io .transport, .noPrimary, .noWitnesses, .noWitnessesLeft,
   .forkDetected [], .noInitialTrustedState, .noTrustedState .trusted,
   .targetLowerThanTrustedState 1 2, .heightTooHigh 3 2,
   .trustedStateOutsideTrustingPeriod (sampleLB 0) ⟨⟨1, 3⟩, 0, 0⟩,
   .bisectionFailed 2 1, .invalidLightBlock ⟨.expired⟩,
   .invalidAdjacentHeaders 0 1, .missingLastBlockId 1, .channelDisconnected,
   .sled 0, .serdeCbor 0]

/-- C4 counterexample: the error type does not provide exactly the sixteen
kinds the spec lists — the `Sled` and `SerdeCbor` variants fall outside the
spec's sixteen names, and no variant is named `StoreBackend`. -/
theorem error_kinds_not_spec_sixteen :
    kindName (ErrorDetail.sled 0) ∉ specErrorKindNames ∧
    kindName (ErrorDetail.serdeCbor 0) ∉ specErrorKindNames ∧
    "StoreBackend" ∉ codeErrorKindNames ∧
    codeErrorKindNames ≠ specErrorKindNames := by
  decide

/-- C4 (amended): the error type provides exactly seventeen kinds — the
fifteen spec kinds other than `StoreBackend`, followed by `Sled` and
`SerdeCbor` in place of a single `StoreBackend` kind: every error carries one
of these seventeen kind names, each of the seventeen names is realised by
some error, and the seventeen names are pairwise distinct. -/
theorem error_kinds_exactly_seventeen :
    (∀ e : ErrorDetail, kindName e ∈ codeErrorKindNames) ∧
    errorKindReps.map kindName = codeErrorKindNames ∧
    codeErrorKindNames.Nodup ∧
    codeErrorKindNames = specErrorKindNames.dropLast ++ ["Sled", "SerdeCbor"] := by
  refine ⟨?_, by decide, by decide, by decide⟩
  intro e
  cases e <;> simp [kindName, codeErrorKindNames]

/-- `ErrorExt::not_enough_trust` on the toplevel detail (`errors.rs`): for an
`InvalidLightBlock` the question is delegated to the wrapped verification
detail; every other kind yields `none`. -/
def ErrorDetail.not_enough_trust : ErrorDetail → Option VotingPowerTally
  | .invalidLightBlock e => e.source.not_enough_trust
  | _ => none

/-- `ErrorExt::has_expired` on the toplevel detail (`errors.rs`): for an
`InvalidLightBlock` the question is delegated to the wrapped verification
detail; every other kind yields `false`. -/
def ErrorDetail.has_expired : ErrorDetail → Bool
  | .invalidLightBlock e => e.source.has_expired
  | _ => false

/-- `ErrorExt::is_timeout` on the toplevel detail (`errors.rs`): for an `Io`
error the question is delegated to the wrapped `IoError`; every other kind
yields `none`. -/
def ErrorDetail.is_timeout : ErrorDetail → Option Duration
  | .io e => e.is_timeout
  | _ => none

/-- `ErrorExt::is_io` on the toplevel detail (`errors.rs`). -/
def ErrorDetail.is_io : ErrorDetail → Bool
  | .io _ => true
  | _ => false

/-- `ErrorExt::is_height_too_high` on the toplevel detail (`errors.rs`). -/
def ErrorDetail.is_height_too_high : ErrorDetail → Bool
  | .heightTooHigh _ _ => true
  | _ => false

/-- C7: the `ErrorExt` classification of toplevel errors is exact —
`not_enough_trust` answers `some tally` precisely on an `InvalidLightBlock`
wrapping a not-enough-trust detail, `has_expired` holds precisely on an
`InvalidLightBlock` wrapping an expired detail, `is_timeout` answers
`some duration` precisely on an `Io` error wrapping a timeout, and
`is_height_too_high` holds precisely on a `HeightTooHigh` error; every other
kind yields `none` or `false` under each classifier. -/
theorem error_ext_classifiers_exact :
    (∀ (e : ErrorDetail) (t : VotingPowerTally),
      e.not_enough_trust = some t ↔
        e = ErrorDetail.invalidLightBlock ⟨VerificationErrorDetail.notEnoughTrust t⟩) ∧
    (∀ e : ErrorDetail,
      e.has_expired = true ↔
        e = ErrorDetail.invalidLightBlock ⟨VerificationErrorDetail.expired⟩) ∧
    (∀ (e : ErrorDetail) (d : Duration),
      e.is_timeout = some d ↔ e = ErrorDetail.io (IoError.timeout d)) ∧
    (∀ e : ErrorDetail,
      e.is_height_too_high = true ↔
        ∃ h lh, e = ErrorDetail.heightTooHigh h lh) := by
  refine ⟨?_, ?_, ?_, ?_⟩
  · intro e t
    cases e <;>
      (simp only [ErrorDetail.not_enough_trust, reduceCtorEq, iff_false]
       try exact fun h => by cases h)
    case invalidLightBlock d =>
      obtain ⟨src⟩ := d
      cases src <;>
        simp [VerificationErrorDetail.not_enough_trust]
  · intro e
    cases e <;>
      (simp only [ErrorDetail.has_expired, reduceCtorEq, iff_false]
       try exact fun h => by cases h)
    case invalidLightBlock d =>
      obtain ⟨src⟩ := d
      cases src <;> simp [VerificationErrorDetail.has_expired]
  · intro e d
    cases e <;>
      (simp only [ErrorDetail.is_timeout, reduceCtorEq, iff_false]
       try exact fun h => by cases h)
    case io ioe =>
      cases ioe <;> simp [IoError.is_timeout]
  · intro e
    cases e <;> simp [ErrorDetail.is_height_too_high]

/-- Error raised on a crossbeam channel send failure, carrying back the
payload that could not be sent (external crate type). -/
structure SendError (T : Type) where
  payload : T

/-- Error raised on a crossbeam channel receive failure (external crate
type, fieldless). -/
structure RecvError where

/-- The toplevel `Error` produced by `define_error!` pairs an `ErrorDetail`
with a diagnostic trace; the trace carries no information the embedded code
inspects, so `Error` is identified with its detail. -/
abbrev Error := ErrorDetail

/-- `Error::send` (`errors.rs`): any channel send failure is converted to the
`ChannelDisconnected` kind, its payload discarded. -/
def Error.send {T : Type} (_e : SendError T) : Error :=
  ErrorDetail.channelDisconnected

/-- `Error::recv` (`errors.rs`): any channel receive failure is converted to
the `ChannelDisconnected` kind, its detail discarded. -/
def Error.recv (_e : RecvError) : Error :=
  ErrorDetail.channelDisconnected

/-- C9: every crossbeam channel failure, on the send or the receive side, is
converted by `Error::send` / `Error::recv` to the `ChannelDisconnected` error
kind, and the channel payload never influences the result. -/
theorem channel_errors_collapse_to_channel_disconnected :
    (∀ (T : Type) (e : SendError T), Error.send e = ErrorDetail.channelDisconnected) ∧
    (∀ r : RecvError, Error.recv r = ErrorDetail.channelDisconnected) ∧
    (∀ (T U : Type) (e : SendError T) (f : SendError U) (r : RecvError),
      Error.send e = Error.send f ∧ Error.send e = Error.recv r) :=
  ⟨fun _ _ => rfl, fun _ => rfl, fun _ _ _ _ _ => ⟨rfl, rfl⟩⟩

/-- Opaque payload of an external protobuf message: the ABCI request and
response message types of `tendermint_proto` carry data the client never
inspects, so each is modelled by an opaque payload (the empty message by 0). -/
abbrev ProtoPayload := Nat

/-- Typed ABCI request messages (external protobuf types). -/
abbrev RequestEcho := ProtoPayload

abbrev RequestInfo := ProtoPayload

abbrev RequestInitChain := ProtoPayload

abbrev RequestQuery := ProtoPayload

abbrev RequestCheckTx := ProtoPayload

abbrev RequestFlush := ProtoPayload

abbrev RequestCommit := ProtoPayload

abbrev RequestListSnapshots := ProtoPayload

abbrev RequestOfferSnapshot := ProtoPayload

abbrev RequestLoadSnapshotChunk := ProtoPayload

abbrev RequestApplySnapshotChunk := ProtoPayload

abbrev RequestPrepareProposal := ProtoPayload

abbrev RequestProcessProposal := ProtoPayload

abbrev RequestExtendVote := ProtoPayload

abbrev RequestVerifyVoteExtension := ProtoPayload

abbrev RequestFinalizeBlock := ProtoPayload

/-- Typed ABCI response messages (external protobuf types). -/
abbrev ResponseException := ProtoPayload

abbrev ResponseEcho := ProtoPayload

abbrev ResponseInfo := ProtoPayload

abbrev ResponseInitChain := ProtoPayload

abbrev ResponseQuery := ProtoPayload

abbrev ResponseCheckTx := ProtoPayload

abbrev ResponseFlush := ProtoPayload

abbrev ResponseCommit := ProtoPayload

abbrev ResponseListSnapshots := ProtoPayload

abbrev ResponseOfferSnapshot := ProtoPayload

abbrev ResponseLoadSnapshotChunk := ProtoPayload

abbrev ResponseApplySnapshotChunk := ProtoPayload

abbrev ResponsePrepareProposal := ProtoPayload

abbrev ResponseProcessProposal := ProtoPayload

abbrev ResponseExtendVote := ProtoPayload

abbrev ResponseVerifyVoteExtension := ProtoPayload

abbrev ResponseFinalizeBlock := ProtoPayload

/-- The `request::Value` sum of the v0.38 ABCI protocol. -/
inductive RequestValue where
  | echo (r : RequestEcho)
  | flush (r : RequestFlush)
  | info (r : RequestInfo)
  | initChain (r : RequestInitChain)
  | query (r : RequestQuery)
  | checkTx (r : RequestCheckTx)
  | commit (r : RequestCommit)
  | listSnapshots (r : RequestListSnapshots)
  | offerSnapshot (r : RequestOfferSnapshot)
  | loadSnapshotChunk (r : RequestLoadSnapshotChunk)
  | applySnapshotChunk (r : RequestApplySnapshotChunk)
  | prepareProposal (r : RequestPrepareProposal)
  | processProposal (r : RequestProcessProposal)
  | extendVote (r : RequestExtendVote)
  | verifyVoteExtension (r : RequestVerifyVoteExtension)
  | finalizeBlock (r : RequestFinalizeBlock)
deriving DecidableEq

/-- The `response::Value` sum of the v0.38 ABCI protocol. -/
inductive ResponseValue where
  | exception (r : ResponseException)
  | echo (r : ResponseEcho)
  | flush (r : ResponseFlush)
  | info (r : ResponseInfo)
  | initChain (r : ResponseInitChain)
  | query (r : ResponseQuery)
  | checkTx (r : ResponseCheckTx)
  | commit (r : ResponseCommit)
  | listSnapshots (r : ResponseListSnapshots)
  | offerSnapshot (r : ResponseOfferSnapshot)
  | loadSnapshotChunk (r : ResponseLoadSnapshotChunk)
  | applySnapshotChunk (r : ResponseApplySnapshotChunk)
  | prepareProposal (r : ResponsePrepareProposal)
  | processProposal (r : ResponseProcessProposal)
  | extendVote (r : ResponseExtendVote)
  | verifyVoteExtension (r : ResponseVerifyVoteExtension)
  | finalizeBlock (r : ResponseFinalizeBlock)
deriving DecidableEq

/-- A wire request: an optional request value. -/
structure Request where
  value : Option RequestValue
deriving DecidableEq

/-- A wire response: an optional response value. -/
structure Response where
  value : Option ResponseValue
deriving DecidableEq

/-- Errors of the ABCI crate used by `client.rs`: the three protocol errors it
constructs, plus the I/O kind used on connection failures (the crate's error
type is not among the sources; these are the kinds `client.rs` names). -/
inductive AbciError where
  | io (n : Nat)
  | unexpectedServerResponseType (expected : String) (got : ResponseValue)
  | serverConnectionTerminated
  | malformedServerResponse
deriving DecidableEq

/-- The client codec over its TCP stream, modelled by the observable outcome
of one exchange: the error `send` returns, if any, and the item `next`
yields, if any. -/
structure ClientCodec where
  send_result : Option AbciError
  next_item : Option (Except AbciError Response)

/-- Blocking ABCI client: holds its codec. -/
structure Client where
  codec : ClientCodec

/-- `Client::perform` (`client.rs`): send the request; a `None` from the codec
stream is `server_connection_terminated`, a codec error propagates, and a
response without a value is `malformed_server_response`. -/
def Client.perform (self : Client) (_req : RequestValue) :
    Except AbciError ResponseValue :=
  match self.codec.send_result with
  | some e => Except.error e
  | none =>
    match self.codec.next_item with
    | none => Except.error AbciError.serverConnectionTerminated
    | some (Except.error e) => Except.error e
    | some (Except.ok res) =>
      match res.value with
      | none => Except.error AbciError.malformedServerResponse
      | some v => Except.ok v

/-- Projection selecting the `Echo` response variant; one such projection per
variant stands for the pattern match generated by the `perform!` macro. -/
def ResponseValue.echo? : ResponseValue → Option ResponseEcho
  | .echo r => some r
  | _ => none

def ResponseValue.info? : ResponseValue → Option ResponseInfo
  | .info r => some r
  | _ => none

def ResponseValue.initChain? : ResponseValue → Option ResponseInitChain
  | .initChain r => some r
  | _ => none

def ResponseValue.query? : ResponseValue → Option ResponseQuery
  | .query r => some r
  | _ => none

def ResponseValue.checkTx? : ResponseValue → Option ResponseCheckTx
  | .checkTx r => some r
  | _ => none

def ResponseValue.flush? : ResponseValue → Option ResponseFlush
  | .flush r => some r
  | _ => none

def ResponseValue.commit? : ResponseValue → Option ResponseCommit
  | .commit r => some r
  | _ => none

def ResponseValue.listSnapshots? : ResponseValue → Option ResponseListSnapshots
  | .listSnapshots r => some r
  | _ => none

def ResponseValue.offerSnapshot? : ResponseValue → Option ResponseOfferSnapshot
  | .offerSnapshot r => some r
  | _ => none

def ResponseValue.loadSnapshotChunk? : ResponseValue → Option ResponseLoadSnapshotChunk
  | .loadSnapshotChunk r => some r
  | _ => none

def ResponseValue.applySnapshotChunk? : ResponseValue → Option ResponseApplySnapshotChunk
  | .applySnapshotChunk r => some r
  | _ => none

def ResponseValue.extendVote? : ResponseValue → Option ResponseExtendVote
  | .extendVote r => some r
  | _ => none

def ResponseValue.verifyVoteExtension? : ResponseValue → Option ResponseVerifyVoteExtension
  | .verifyVoteExtension r => some r
  | _ => none

def ResponseValue.finalizeBlock? : ResponseValue → Option ResponseFinalizeBlock
  | .finalizeBlock r => some r
  | _ => none

/-- The `perform!` macro of `client.rs`, shared by every typed request method:
perform the request, then accept only the response variant selected by `proj`
(the variant named `name`), converting any other received variant into an
`unexpected_server_response_type` error. -/
def performAs {α : Type} (name : String) (proj : ResponseValue → Option α)
    (self : Client) (req : RequestValue) : Except AbciError α :=
  match Client.perform self req with
  | Except.error e => Except.error e
  | Except.ok v =>
    match proj v with
    | some r => Except.ok r
    | none => Except.error (AbciError.unexpectedServerResponseType name v)

def Client.echo (self : Client) (req : RequestEcho) : Except AbciError ResponseEcho :=
  performAs ("Echo") ResponseValue.echo? self (RequestValue.echo req)

def Client.info (self : Client) (req : RequestInfo) : Except AbciError ResponseInfo :=
  performAs ("Info") ResponseValue.info? self (RequestValue.info req)

def Client.init_chain (self : Client) (req : RequestInitChain) :
    Except AbciError ResponseInitChain :=
  performAs ("InitChain") ResponseValue.initChain? self (RequestValue.initChain req)

def Client.query (self : Client) (req : RequestQuery) : Except AbciError ResponseQuery :=
  performAs ("Query") ResponseValue.query? self (RequestValue.query req)

def Client.check_tx (self : Client) (req : RequestCheckTx) :
    Except AbciError ResponseCheckTx :=
  performAs ("CheckTx") ResponseValue.checkTx? self (RequestValue.checkTx req)

def Client.flush (self : Client) : Except AbciError ResponseFlush :=
  performAs ("Flush") ResponseValue.flush? self (RequestValue.flush 0)

def Client.commit (self : Client) : Except AbciError ResponseCommit :=
  performAs ("Commit") ResponseValue.commit? self (RequestValue.commit 0)

def Client.list_snapshots (self : Client) : Except AbciError ResponseListSnapshots :=
  performAs ("ListSnapshots") ResponseValue.listSnapshots? self (RequestValue.listSnapshots 0)

def Client.offer_snapshot (self : Client) (req : RequestOfferSnapshot) :
    Except AbciError ResponseOfferSnapshot :=
  performAs ("OfferSnapshot") ResponseValue.offerSnapshot? self (RequestValue.offerSnapshot req)

def Client.load_snapshot_chunk (self : Client) (req : RequestLoadSnapshotChunk) :
    Except AbciError ResponseLoadSnapshotChunk :=
  performAs ("LoadSnapshotChunk") ResponseValue.loadSnapshotChunk? self
    (RequestValue.loadSnapshotChunk req)

def Client.apply_snapshot_chunk (self : Client) (req : RequestApplySnapshotChunk) :
    Except AbciError ResponseApplySnapshotChunk :=
  performAs ("ApplySnapshotChunk") ResponseValue.applySnapshotChunk? self
    (RequestValue.applySnapshotChunk req)

def Client.extend_vote (self : Client) (req : RequestExtendVote) :
    Except AbciError ResponseExtendVote :=
  performAs ("ExtendVote") ResponseValue.extendVote? self (RequestValue.extendVote req)

def Client.verify_vote_extension (self : Client) (req : RequestVerifyVoteExtension) :
    Except AbciError ResponseVerifyVoteExtension :=
  performAs ("VerifyVoteExtension") ResponseValue.verifyVoteExtension? self
    (RequestValue.verifyVoteExtension req)

def Client.finalize_block (self : Client) (req : RequestFinalizeBlock) :
    Except AbciError ResponseFinalizeBlock :=
  performAs ("FinalizeBlock") ResponseValue.finalizeBlock? self
    (RequestValue.finalizeBlock req)

/-- The four-way contract of one typed request method: the method answers `Ok`
exactly on the response variant `mk` matching the request it sends via `rq`;
any other received variant is an `unexpected_server_response_type` error
naming `name`; a terminated stream is `server_connection_terminated`; a
response carrying no value is `malformed_server_response`. -/
def dispatchesAs {ρ α : Type} (name : String)
    (method : Client → ρ → Except AbciError α)
    (rq : ρ → RequestValue) (mk : α → ResponseValue) : Prop :=
  ∀ (c : Client) (req : ρ),
    (∀ r, method c req = Except.ok r ↔ Client.perform c (rq req) = Except.ok (mk r)) ∧
    (∀ v, Client.perform c (rq req) = Except.ok v → (∀ r, v ≠ mk r) →
      method c req = Except.error (AbciError.unexpectedServerResponseType name v)) ∧
    (c.codec.send_result = none → c.codec.next_item = none →
      method c req = Except.error AbciError.serverConnectionTerminated) ∧
    (c.codec.send_result = none → c.codec.next_item = some (Except.ok ⟨none⟩) →
      method c req = Except.error AbciError.malformedServerResponse)

/-- A method built on `performAs` with a projection that exactly inverts the
response-variant constructor satisfies the dispatch contract. -/
theorem dispatchesAs_of_performAs {ρ α : Type} (name : String)
    (proj : ResponseValue → Option α) (rq : ρ → RequestValue)
    (mk : α → ResponseValue)
    (h1 : ∀ r, proj (mk r) = some r)
    (h2 : ∀ v r, proj v = some r → v = mk r) :
    dispatchesAs name (fun c req => performAs name proj c (rq req)) rq mk := by
  intro c req
  refine ⟨?_, ?_, ?_, ?_⟩
  · intro r
    cases hx : Client.perform c (rq req) with
    | error e => simp [performAs, hx]
    | ok v =>
      cases hv : proj v with
      | none =>
        simp only [performAs, hx, hv]
        constructor
        · intro h
          simp at h
        · intro h
          have hvm : v = mk r := by injection h
          rw [hvm, h1 r] at hv
          cases hv
      | some r' =>
        simp only [performAs, hx, hv]
        have hvm : v = mk r' := h2 v r' hv
        constructor
        · intro h
          have hrr : r' = r := by injection h
          rw [hvm, hrr]
        · intro h
          have hmm : v = mk r := by injection h
          have hpr : proj v = some r := by rw [hmm]; exact h1 r
          rw [hv] at hpr
          have hrr : r' = r := by injection hpr
          rw [hrr]
  · intro v hperf hne
    cases hv : proj v with
    | none => simp [performAs, hperf, hv]
    | some r => exact absurd (h2 v r hv) (hne r)
  · intro hs hn
    simp [performAs, Client.perform, hs, hn]
  · intro hs hn
    simp [performAs, Client.perform, hs, hn]

/-- C8: every typed ABCI client request method returns `Ok` exactly when the
server's response value is the variant matching the request variant; a
response of any other variant yields an `unexpected_server_response_type`
error, a terminated stream yields `server_connection_terminated`, and a
response with no value yields `malformed_server_response`. -/
theorem abci_client_dispatch_exact :
    dispatchesAs ("Echo") Client.echo RequestValue.echo ResponseValue.echo ∧
    dispatchesAs ("Info") Client.info RequestValue.info ResponseValue.info ∧
    dispatchesAs ("InitChain") Client.init_chain RequestValue.initChain
      ResponseValue.initChain ∧
    dispatchesAs ("Query") Client.query RequestValue.query ResponseValue.query ∧
    dispatchesAs ("CheckTx") Client.check_tx RequestValue.checkTx
      ResponseValue.checkTx ∧
    dispatchesAs ("Flush") (fun c (_ : Unit) => Client.flush c)
      (fun _ => RequestValue.flush 0) ResponseValue.flush ∧
    dispatchesAs ("Commit") (fun c (_ : Unit) => Client.commit c)
      (fun _ => RequestValue.commit 0) ResponseValue.commit ∧
    dispatchesAs ("ListSnapshots") (fun c (_ : Unit) => Client.list_snapshots c)
      (fun _ => RequestValue.listSnapshots 0) ResponseValue.listSnapshots ∧
    dispatchesAs ("OfferSnapshot") Client.offer_snapshot RequestValue.offerSnapshot
      ResponseValue.offerSnapshot ∧
    dispatchesAs ("LoadSnapshotChunk") Client.load_snapshot_chunk
      RequestValue.loadSnapshotChunk ResponseValue.loadSnapshotChunk ∧
    dispatchesAs ("ApplySnapshotChunk") Client.apply_snapshot_chunk
      RequestValue.applySnapshotChunk ResponseValue.applySnapshotChunk ∧
    dispatchesAs ("ExtendVote") Client.extend_vote RequestValue.extendVote
      ResponseValue.extendVote ∧
    dispatchesAs ("VerifyVoteExtension") Client.verify_vote_extension
      RequestValue.verifyVoteExtension ResponseValue.verifyVoteExtension ∧
    dispatchesAs ("FinalizeBlock") Client.finalize_block RequestValue.finalizeBlock
      ResponseValue.finalizeBlock := by
  refine ⟨?_, ?_, ?_, ?_, ?_, ?_, ?_, ?_, ?_, ?_, ?_, ?_, ?_, ?_⟩ <;>
    exact dispatchesAs_of_performAs _ _ _ _ (fun r => rfl)
      (fun v r h => by cases v <;> simp_all [ResponseValue.echo?,
        ResponseValue.info?, ResponseValue.initChain?, ResponseValue.query?,
        ResponseValue.checkTx?, ResponseValue.flush?, ResponseValue.commit?,
        ResponseValue.listSnapshots?, ResponseValue.offerSnapshot?,
        ResponseValue.loadSnapshotChunk?, ResponseValue.applySnapshotChunk?,
        ResponseValue.extendVote?, ResponseValue.verifyVoteExtension?,
        ResponseValue.finalizeBlock?])

/-- Concrete run of `abci_client_dispatch_exact`: against a codec whose stream
has terminated, `echo` fails with `server_connection_terminated`. -/
theorem abci_client_dispatch_exact_witness :
    Client.echo ⟨⟨none, none⟩⟩ 0 =
      Except.error AbciError.serverConnectionTerminated :=
  ((abci_client_dispatch_exact.1 ⟨⟨none, none⟩⟩ 0).2.2.1) rfl rfl
